import Mathlib

/-!
# Verification of the docset-generation core (`src/commands/generate.rs`)

This file shallow-embeds the core of the `generate` command of cargo-docset:
the filename grammar parser `parse_docset_entry`, the directory walker
`recursive_walk` with its `ROOT_SKIP_DIRS` exclusion set, the SQLite index
builder `generate_sqlite_index`, the recursive documentation copy
`copy_dir_recursive`, the metadata writer `write_metadata`, and the `generate`
orchestrator, and proves the specified properties about them.

Modelling conventions:
* Rust `String`/`&str` values become Lean `String`; paths are represented by
  the relevant strings (a file name, a path relative to the rustdoc root).
* Filesystem trees are explicit inductive values (`FsEntry`), with dedicated
  constructors for the two failure conditions the walker can meet: a directory
  whose `read_dir` fails, and a directory entry whose `file_type()` query
  fails.
* Rust panics (`Option::unwrap` on `None`) are modelled as an explicit
  `panic` outcome, distinct from the `Result`-style errors the code returns.
* The SQLite database is modelled as the list of rows of the `searchIndex`
  table. The schema call passes a two-statement SQL string (plus a stray
  closing parenthesis) to `Connection::execute`, a single-statement API:
  only the leading `CREATE TABLE` is prepared and run and the tail — the
  `CREATE UNIQUE INDEX anchor` statement and the stray parenthesis, which
  would be a syntax error if it were ever parsed — is silently discarded.
  The `(name, type, path)` uniqueness index therefore never exists: every
  `INSERT` appends its row, duplicates included, and the transaction
  commits.
* External cargo collaborators (`CompileOptions::new`, workspace queries,
  `clean`, `doc`) are modelled as successful, following the spec's scoping
  of the compilation step as "an external operation that must run,
  successfully, before the core begins"; `clean` and `doc` contribute
  abstract mutation events so that the order of side effects is visible.
-/

/-- The entry kinds of `DocsetEntry`. Modelled from the spec: `EntryType` lives
in `src/common.rs`, which is not among the sources; the spec fixes the closed
enumeration {Package, Module, Constant, Enum, Function, Macro, Trait, Struct,
Type}. -/
inductive EntryType where
  | Package
  | Module
  | Constant
  | Enum
  | Function
  | Macro
  | Trait
  | Struct
  | Type
deriving DecidableEq, Repr

/-- Modelled from the spec: the stringified kind stored in the `type` column
("text, the stringified kind"); the `Display` impl lives in `src/common.rs`,
which is not among the sources. Each kind renders as its variant name. -/
def entryTypeStr : EntryType → String
  | EntryType.Package => "Package"
  | EntryType.Module => "Module"
  | EntryType.Constant => "Constant"
  | EntryType.Enum => "Enum"
  | EntryType.Function => "Function"
  | EntryType.Macro => "Macro"
  | EntryType.Trait => "Trait"
  | EntryType.Struct => "Struct"
  | EntryType.Type => "Type"

/-- One indexed symbol: qualified name, kind, and the HTML file path relative
to the rustdoc root (`file_db_path` in the source). Modelled from the spec and
the uses in `generate.rs` (`DocsetEntry::new(name, ty, path)`); the struct
itself lives in `src/common.rs`, which is not among the sources. -/
structure DocsetEntry where
  name : String
  ty : EntryType
  path : String
deriving DecidableEq, Repr

/-- Rust `str::split(c)`: split a character list at every occurrence of `c`.
`""` splits to `[""]`, separators at the ends produce empty segments. -/
def splitChar (c : Char) : List Char → List (List Char)
  | [] => [[]]
  | x :: xs =>
    let r := splitChar c xs
    if x = c then [] :: r
    else
      match r with
      | [] => [[x]]
      | h :: t => (x :: h) :: t

/-- Rust `str::split(c).collect::<Vec<_>>()` on a `String`. -/
def rustSplit (s : String) (c : Char) : List String :=
  (splitChar c s.data).map (fun l => String.mk l)

/-- Rust `str::contains(c)` for a single character pattern. -/
def containsChar (s : String) (c : Char) : Bool :=
  s.data.contains c

/-- Rust `Path::extension()` applied to a file name: the part after the final
`.`, or none when there is no `.`, or when the only `.` is the leading one
(a leading-dot "hidden" file has no extension). -/
def pathExtension (f : String) : Option String :=
  match rustSplit f '.' with
  | [] => none
  | [_] => none
  | ["", _] => none
  | ps => ps.getLast?

/-- Outcome of `parse_docset_entry`: an entry, `None` ("not an entry"), or a
panic — the source calls `module_path.unwrap()` for recognized three-segment
kinds, which panics when no enclosing namespace path was supplied. -/
inductive ParseResult where
  | entry (e : DocsetEntry)
  | notAnEntry
  | panic
deriving DecidableEq, Repr

/-- The fixed kind lookup of the three-segment arm of `parse_docset_entry`
(`generate.rs` lines 96-133). -/
def kindOf : String → Option EntryType
  | "const" => some EntryType.Constant
  | "enum" => some EntryType.Enum
  | "fn" => some EntryType.Function
  | "macro" => some EntryType.Macro
  | "trait" => some EntryType.Trait
  | "struct" => some EntryType.Struct
  | "type" => some EntryType.Type
  | _ => none

/-- Embedding of `parse_docset_entry` (`generate.rs` lines 55-139). `module_path` is the
optional enclosing namespace path, `file_db_path` the file path relative to
the rustdoc root (the source's `strip_prefix` result), `file_name` the final
path component. Only `html` files are considered; the file name is split on
`.`; two-segment `index.html` files yield Module/Package entries depending on
whether the namespace path contains a `:`; three-segment files go through the
fixed kind lookup, unwrapping the namespace path (a panic when absent). -/
def parse_docset_entry (module_path : Option String) (file_db_path : String)
    (file_name : String) : ParseResult :=
  if pathExtension file_name = some "html" then
    match rustSplit file_name '.' with
    | [p0, _] =>
      if p0 = "index" then
        match module_path with
        | some mod_path =>
          if containsChar mod_path ':' then
            ParseResult.entry ⟨mod_path ++ "::" ++ p0, EntryType.Module, file_db_path⟩
          else
            ParseResult.entry ⟨mod_path, EntryType.Package, file_db_path⟩
        | none => ParseResult.notAnEntry
      else ParseResult.notAnEntry
    | [p0, p1, _] =>
      match kindOf p0 with
      | some k =>
        match module_path with
        | some mod_path => ParseResult.entry ⟨mod_path ++ "::" ++ p1, k, file_db_path⟩
        | none => ParseResult.panic
      | none => ParseResult.notAnEntry
    | _ => ParseResult.notAnEntry
  else ParseResult.notAnEntry

example : parse_docset_entry (some "mycrate") "mycrate/index.html" "index.html" =
    ParseResult.entry ⟨"mycrate", EntryType.Package, "mycrate/index.html"⟩ := by decide

example : parse_docset_entry (some "mycrate::widgets") "p" "index.html" =
    ParseResult.entry ⟨"mycrate::widgets::index", EntryType.Module, "p"⟩ := by decide

example : parse_docset_entry (some "mycrate::widgets") "p" "struct.Foo.html" =
    ParseResult.entry ⟨"mycrate::widgets::Foo", EntryType.Struct, "p"⟩ := by decide

example : parse_docset_entry (some "m") "p" "weird.Foo.html" = ParseResult.notAnEntry := by decide

example : parse_docset_entry none "p" "fn.foo.html" = ParseResult.panic := by decide

example : parse_docset_entry none "p" "index.html" = ParseResult.notAnEntry := by decide

example : parse_docset_entry (some "m") "p" "style.css" = ParseResult.notAnEntry := by decide

/-- A directory tree as seen by the walker. `file`/`dir` are ordinary entries;
`unreadableDir` is a directory whose `read_dir` fails with an I/O error;
`ftypeError` is a directory entry whose `file_type()` query fails (the source
calls `.unwrap()` on it, a panic). -/
inductive FsEntry where
  | file (name : String)
  | dir (name : String) (children : List FsEntry)
  | unreadableDir (name : String)
  | ftypeError (name : String)

/-- Outcome of one `recursive_walk` call: `Ok(entries)`, `Err` of an I/O read
error (`context(IoRead)`), or a panic from one of the `unwrap` calls. -/
inductive WalkOutcome where
  | ok (entries : List DocsetEntry)
  | ioErr
  | panic
deriving DecidableEq, Repr

/-- Embedding of `ROOT_SKIP_DIRS` (`generate.rs` line 141). -/
def ROOT_SKIP_DIRS : List String := ["src", "implementors"]

/-- The walker's skip test (`generate.rs` line 160): a directory is skipped
iff the current module path is absent (i.e. we are at the rustdoc root) and
the directory name is in `ROOT_SKIP_DIRS`. -/
def skipDir (module_path : Option String) (dir_name : String) : Bool :=
  module_path.isNone && ROOT_SKIP_DIRS.contains dir_name

/-- Extend a relative path by one component (`PathBuf::push`, rendered with
`/` separators; the root itself is the empty relative path). -/
def relJoin (rel name : String) : String :=
  if rel = "" then name else rel ++ "/" ++ name

/-- The subdirectory module path (`generate.rs` lines 155-161):
`module_path.map(|p| format!("{}::", p)).unwrap_or_default()` followed by
`push_str(&dir_name)`. -/
def extendModPath (module_path : Option String) (dir_name : String) : String :=
  (match module_path with
   | some p => p ++ "::"
   | none => "") ++ dir_name

/-- The entry list of an `ok` outcome (empty otherwise). -/
def outEntries : WalkOutcome → List DocsetEntry
  | WalkOutcome.ok es => es
  | _ => []

/-- The tail of `recursive_walk` (`generate.rs` lines 172-175): the directory's
own file entries, then `entries.extend(v?)` over the collected subdirectory
results in order — the first `Err` aborts with it. `none` from the loop is a
propagated panic. -/
def finish : Option (List DocsetEntry × List WalkOutcome) → WalkOutcome
  | none => WalkOutcome.panic
  | some (es, subs) =>
    if WalkOutcome.ioErr ∈ subs then WalkOutcome.ioErr
    else WalkOutcome.ok (es ++ (subs.map outEntries).flatten)

/-- The `for dir_entry in dir` loop of `recursive_walk` (`generate.rs` lines
152-171), processing the entries of the current directory in order. Returns
`none` when some `unwrap` panics (a `file_type()` failure, a parse panic, or
a panic inside a subdirectory's recursive call, which runs eagerly inside the
loop); otherwise the file entries of this directory in encounter order paired
with the outcomes of the recursive subdirectory calls in encounter order. -/
def walk_loop (module_path : Option String) (rel : String) :
    List FsEntry → Option (List DocsetEntry × List WalkOutcome)
  | [] => some ([], [])
  | FsEntry.ftypeError _ :: _ => none
  | FsEntry.file name :: rest =>
    match parse_docset_entry module_path (relJoin rel name) name with
    | ParseResult.panic => none
    | ParseResult.entry e =>
      match walk_loop module_path rel rest with
      | none => none
      | some (es, subs) => some (e :: es, subs)
    | ParseResult.notAnEntry => walk_loop module_path rel rest
  | FsEntry.dir name cs :: rest =>
    if skipDir module_path name then walk_loop module_path rel rest
    else
      match
        finish (walk_loop (some (extendModPath module_path name)) (relJoin rel name) cs)
      with
      | WalkOutcome.panic => none
      | sub =>
        match walk_loop module_path rel rest with
        | none => none
        | some (es, subs) => some (es, sub :: subs)
  | FsEntry.unreadableDir name :: rest =>
    if skipDir module_path name then walk_loop module_path rel rest
    else
      match walk_loop module_path rel rest with
      | none => none
      | some (es, subs) => some (es, WalkOutcome.ioErr :: subs)
termination_by l => sizeOf l

/-- Embedding of `recursive_walk` (`generate.rs` lines 143-176) on a readable directory,
given as its list of entries; `module_path` and `rel` locate it under the
rustdoc root. An unreadable directory is covered at the call sites: its
`read_dir` fails straight away with an I/O error. -/
def recursive_walk (module_path : Option String) (rel : String)
    (children : List FsEntry) : WalkOutcome :=
  finish (walk_loop module_path rel children)

/-- One row of the `searchIndex` table: the `(name, type, path)` triple bound
by the `INSERT` statement (`generate.rs` lines 193-203); the integer primary
key is assigned automatically and omitted. -/
structure SqlRow where
  name : String
  ty : String
  path : String
deriving DecidableEq, Repr

/-- The row an entry is inserted as: `(entry.name, entry.ty.to_string(),
entry.path)` (`generate.rs` lines 197-201). -/
def DocsetEntry.toRow (e : DocsetEntry) : SqlRow :=
  ⟨e.name, entryTypeStr e.ty, e.path⟩

/-- The `for entry in entries` insert loop (`generate.rs` lines 196-203).
The schema call at lines 184-190 hands a two-statement SQL string (plus a
stray closing parenthesis) to `Connection::execute`, a single-statement API
that prepares only the leading `CREATE TABLE` and silently discards the tail,
so the `anchor` UNIQUE index on `(name, type, path)` is never created: every
`INSERT` succeeds and appends its row, duplicate triples included. -/
def insert_loop : List DocsetEntry → List SqlRow → List SqlRow
  | [], rows => rows
  | e :: rest, rows => insert_loop rest (rows ++ [e.toRow])

/-- Embedding of `generate_sqlite_index` (`generate.rs` lines 178-207): open a fresh
database (the caller has just removed any previous bundle, so the table starts
empty), run the schema call — of which only the `CREATE TABLE` head statement
takes effect — then insert all entries inside one transaction and commit.
Returns the success flag of the call paired with the committed contents of the
`searchIndex` table; with no uniqueness constraint in existence and external
I/O modelled as successful, the call succeeds on every input. -/
def generate_sqlite_index (entries : List DocsetEntry) : Bool × List SqlRow :=
  (true, insert_loop entries [])

/-- Embedding of `copy_dir_recursive` (`generate.rs` lines 209-224) over a directory's
entries: returns the relative paths of the files copied, in copy order, and
whether the copy completed. A subdirectory whose `read_dir` fails aborts with
an error after the files already copied; an entry whose metadata cannot be
determined satisfies neither `is_dir()` nor `is_file()` and is skipped. -/
def copyTrace (rel : String) : List FsEntry → List String × Bool
  | [] => ([], true)
  | FsEntry.file name :: rest =>
    let r := copyTrace rel rest
    (relJoin rel name :: r.1, r.2)
  | FsEntry.dir name cs :: rest =>
    let s := copyTrace (relJoin rel name) cs
    if s.2 then
      let r := copyTrace rel rest
      (s.1 ++ r.1, r.2)
    else (s.1, false)
  | FsEntry.unreadableDir _ :: _ => ([], false)
  | FsEntry.ftypeError _ :: rest => copyTrace rel rest
termination_by l => sizeOf l

/-- The four variable fields of `Info.plist`, in the order the `write!` call
fills its placeholders (`generate.rs` lines 232-250): `CFBundleIdentifier`,
`CFBundleName`, `dashIndexFilePath`, `DocSetPlatformFamily`. -/
structure InfoPlist where
  bundleIdentifier : String
  bundleName : String
  dashIndexFilePath : String
  platformFamily : String
deriving DecidableEq, Repr

/-- Embedding of `write_metadata` (`generate.rs` lines 226-252): all four placeholders are
filled with the one `package_name` argument; the third lands inside the
`<string>{}/index.html</string>` element of `dashIndexFilePath`. -/
def write_metadata (package_name : String) : InfoPlist :=
  { bundleIdentifier := package_name
    bundleName := package_name
    dashIndexFilePath := package_name ++ "/index.html"
    platformFamily := package_name }

/-- The literal XML template of the `write!` call in `write_metadata`
(`generate.rs` lines 232-250), with the four placeholder slots spliced in. -/
def renderInfoPlist (p : InfoPlist) : String :=
  "<?xml version=\"1.0\" encoding=\"UTF-8\"?>\n" ++
  "        <!DOCTYPE plist PUBLIC \"-//Apple//DTD PLIST 1.0//EN\" \"http://www.apple.com/DTDs/PropertyList-1.0.dtd\">\n" ++
  "        <plist version=\"1.0\">\n" ++
  "        <dict>\n" ++
  "            <key>CFBundleIdentifier</key>\n" ++
  "                <string>" ++ p.bundleIdentifier ++ "</string>\n" ++
  "            <key>CFBundleName</key>\n" ++
  "                <string>" ++ p.bundleName ++ "</string>\n" ++
  "            <key>dashIndexFilePath</key>\n" ++
  "                <string>" ++ p.dashIndexFilePath ++ "</string>\n" ++
  "            <key>DocSetPlatformFamily</key>\n" ++
  "                <string>" ++ p.platformFamily ++ "</string>\n" ++
  "            <key>isDashDocset</key>\n" ++
  "                <true/>\n" ++
  "        </dict>\n" ++
  "        </plist>"

/-- The full text written to `Contents/Info.plist`. -/
def write_metadata_content (package_name : String) : String :=
  renderInfoPlist (write_metadata package_name)

/-- The package-selection mode (`Package` in `src/common.rs`, not among the
sources; variants and their uses follow `generate.rs` lines 290-326). -/
inductive PackageSel where
  | all
  | current
  | single (name : String)
  | list (packages : List String)
deriving DecidableEq, Repr

/-- Embedding of `GenerateConfig` (`generate.rs` lines 24-36). -/
structure GenerateConfig where
  package : PackageSel
  no_dependencies : Bool
  doc_private_items : Bool
  features : List String
  no_default_features : Bool
  all_features : Bool
  exclude : List String
  clean : Bool
  lib : Bool
  bins : Option (List String)
deriving DecidableEq, Repr

/-- Embedding of `GenerateConfig::default()` (`generate.rs` lines 38-53). -/
def GenerateConfig.default : GenerateConfig :=
  { package := PackageSel.current
    no_dependencies := false
    doc_private_items := false
    features := []
    no_default_features := true
    all_features := false
    exclude := []
    clean := true
    lib := false
    bins := none }

/-- The workspace queries `generate` makes while resolving the package name
(`generate.rs` lines 290-326), modelled as successful lookups following the
spec's scoping of the cargo layer as an external collaborator. -/
structure WorkspaceInfo where
  rootDirName : String
  currentPackageName : String
deriving DecidableEq, Repr

/-- Package-name resolution (`generate.rs` lines 290-326): the
workspace root directory name in `all`/`list` mode, the current package name
in `current` mode, the given name in `single` mode. -/
def root_package_name (ws : WorkspaceInfo) : PackageSel → String
  | PackageSel.all => ws.rootDirName
  | PackageSel.current => ws.currentPackageName
  | PackageSel.single name => name
  | PackageSel.list _ => ws.rootDirName

/-- The errors `generate` can surface in the model. `sqlite` mirrors the
`.context(Sqlite)?` propagation of `generate_sqlite_index`; with no uniqueness
constraint in existence and external I/O modelled as successful it is
unreachable, but the propagation branch is kept as written in the source. -/
inductive GenError where
  | args
  | ioRead
  | panicked
  | sqlite
  | ioWrite
deriving DecidableEq, Repr

/-- The side-effecting operations `generate` performs, in program order:
`cargo clean`, `cargo doc`, removal of a pre-existing bundle directory,
creation of the bundle skeleton, creation/population of the index database
file, one copy per documentation file, and the metadata write. -/
inductive Mutation where
  | cargoCleanOp
  | cargoDocOp
  | removeBundle
  | mkdirBundle
  | writeIndexFile
  | copyDoc (relPath : String)
  | writeMeta (packageName : String)
deriving DecidableEq, Repr

/-- Embedding of `generate` (`generate.rs` lines 254-375). Pure option-building and the
package-name resolution come first (no side effects), then the
`--exclude`/`--all` usage check (lines 327-332), then in order: `clean` when
configured (line 341), `doc` (line 350), the walk of the rustdoc tree given by
`tree` (line 353), removal of a pre-existing bundle (lines 358-360), skeleton
creation (line 364), the index build (line 365), the documentation copy (line
369) and the metadata write (line 372). Returns the error, if any, and the
ordered list of side-effecting operations performed. -/
def generate_model (cfg : GenerateConfig) (ws : WorkspaceInfo) (tree : List FsEntry)
    (bundleExists : Bool) : Option GenError × List Mutation :=
  let pkg_name := root_package_name ws cfg.package
  if cfg.package ≠ PackageSel.all ∧ cfg.exclude ≠ [] then
    (some GenError.args, [])
  else
    let ms0 := (if cfg.clean then [Mutation.cargoCleanOp] else []) ++ [Mutation.cargoDocOp]
    match recursive_walk none "" tree with
    | WalkOutcome.ioErr => (some GenError.ioRead, ms0)
    | WalkOutcome.panic => (some GenError.panicked, ms0)
    | WalkOutcome.ok entries =>
      let ms1 := ms0 ++ (if bundleExists then [Mutation.removeBundle] else []) ++
        [Mutation.mkdirBundle]
      match generate_sqlite_index entries with
      | (false, _) => (some GenError.sqlite, ms1 ++ [Mutation.writeIndexFile])
      | (true, _) =>
        let c := copyTrace "" tree
        let ms2 := ms1 ++ [Mutation.writeIndexFile] ++ c.1.map Mutation.copyDoc
        if c.2 then (none, ms2 ++ [Mutation.writeMeta pkg_name])
        else (some GenError.ioWrite, ms2)

/-- Whether a mutation writes new output below the bundle's target path
(the skeleton directories, the index file, a copied page, the metadata). -/
def writesBundle : Mutation → Bool
  | Mutation.mkdirBundle => true
  | Mutation.writeIndexFile => true
  | Mutation.copyDoc _ => true
  | Mutation.writeMeta _ => true
  | _ => false

/-- Effect of one mutation on the contents of the bundle directory, kept as a
list of `(path, fresh)` pairs: `fresh` is true on every file this run writes,
and false on the files of a pre-existing bundle. Removal empties the
directory; a write replaces any file at its path; cargo operations and the
skeleton creation leave the files unchanged. -/
def applyMutation (s : List (String × Bool)) : Mutation → List (String × Bool)
  | Mutation.removeBundle => []
  | Mutation.writeIndexFile =>
    ("Contents/Resources/docSet.dsidx", true) ::
      s.filter (fun f => f.1 != "Contents/Resources/docSet.dsidx")
  | Mutation.copyDoc p =>
    ("Contents/Resources/Documents/" ++ p, true) ::
      s.filter (fun f => f.1 != "Contents/Resources/Documents/" ++ p)
  | Mutation.writeMeta _ =>
    ("Contents/Info.plist", true) :: s.filter (fun f => f.1 != "Contents/Info.plist")
  | _ => s

/-- C3: for the two-segment filename `index.html` under a present enclosing
namespace path `P`, the parser yields a Module entry named `P::index` when `P`
contains the namespace-separator character `:`, and otherwise a Package entry
named exactly `P` (the trailing `index` segment dropped). -/
theorem C3_index_html_module_or_package (P db : String) :
    parse_docset_entry (some P) db "index.html" =
      (if containsChar P ':' then
        ParseResult.entry ⟨P ++ "::" ++ "index", EntryType.Module, db⟩
      else
        ParseResult.entry ⟨P, EntryType.Package, db⟩) := by
  by_cases h : containsChar P ':' <;>
    simp [parse_docset_entry, pathExtension, rustSplit, splitChar, h]

/-- C4: for every three-segment filename `<kind>.<ident>.html` under a present
enclosing namespace path `P`, the parser yields an entry of the kind given by
the fixed lookup (`const`→Constant, `enum`→Enum, `fn`→Function, `macro`→Macro,
`trait`→Trait, `struct`→Struct, `type`→Type) with qualified name `P::<ident>`,
and an unrecognized first segment yields no entry. -/
theorem C4_three_segment_kinds (P db f k ident : String)
    (h : rustSplit f '.' = [k, ident, "html"]) :
    (∀ K, kindOf k = some K →
      parse_docset_entry (some P) db f =
        ParseResult.entry ⟨P ++ "::" ++ ident, K, db⟩) ∧
    (kindOf k = none → parse_docset_entry (some P) db f = ParseResult.notAnEntry) ∧
    (kindOf "const" = some EntryType.Constant ∧ kindOf "enum" = some EntryType.Enum ∧
     kindOf "fn" = some EntryType.Function ∧ kindOf "macro" = some EntryType.Macro ∧
     kindOf "trait" = some EntryType.Trait ∧ kindOf "struct" = some EntryType.Struct ∧
     kindOf "type" = some EntryType.Type) := by
  have hext : pathExtension f = some "html" := by
    simp [pathExtension, h]
  refine ⟨?_, ?_, by decide⟩
  · intro K hK
    simp [parse_docset_entry, hext, h, hK]
  · intro hK
    simp [parse_docset_entry, hext, h, hK]

/-- Witness for C4 at the concrete input `struct.Foo.html` under
`mycrate::widgets`. -/
theorem C4_three_segment_kinds_witness :
    parse_docset_entry (some "mycrate::widgets") "mycrate/widgets/struct.Foo.html"
        "struct.Foo.html" =
      ParseResult.entry
        ⟨"mycrate::widgets" ++ "::" ++ "Foo", EntryType.Struct, "mycrate/widgets/struct.Foo.html"⟩ :=
  (C4_three_segment_kinds "mycrate::widgets" "mycrate/widgets/struct.Foo.html"
    "struct.Foo.html" "struct" "Foo" (by decide)).1 EntryType.Struct (by decide)

/-- C5: in each of the claimed cases the parser returns "not an entry" rather
than an error: a file whose extension is not `html`; a filename with a segment
count other than two or three; a two-segment filename whose first segment is
not `index`; and the two-segment `index.html` with no enclosing namespace
path. -/
theorem C5_not_an_entry_cases (mp : Option String) (db f : String) :
    (pathExtension f ≠ some "html" →
      parse_docset_entry mp db f = ParseResult.notAnEntry) ∧
    ((rustSplit f '.').length ≠ 2 ∧ (rustSplit f '.').length ≠ 3 →
      parse_docset_entry mp db f = ParseResult.notAnEntry) ∧
    (∀ p0 p1, rustSplit f '.' = [p0, p1] → p0 ≠ "index" →
      parse_docset_entry mp db f = ParseResult.notAnEntry) ∧
    (rustSplit f '.' = ["index", "html"] → mp = none →
      parse_docset_entry mp db f = ParseResult.notAnEntry) := by
  refine ⟨?_, ?_, ?_, ?_⟩
  · intro h
    simp [parse_docset_entry, h]
  · intro h
    by_cases hext : pathExtension f = some "html"
    · rcases hl : rustSplit f '.' with _ | ⟨a, _ | ⟨b, _ | ⟨c, _ | ⟨d, l⟩⟩⟩⟩ <;>
        simp_all [parse_docset_entry]
    · simp [parse_docset_entry, hext]
  · intro p0 p1 hl hne
    by_cases hext : pathExtension f = some "html"
    · simp [parse_docset_entry, hext, hl, hne]
    · simp [parse_docset_entry, hext]
  · intro hl hmp
    subst hmp
    have hext : pathExtension f = some "html" := by
      simp [pathExtension, hl]
    simp [parse_docset_entry, hext, hl]

/-- Witness for C5 at concrete inputs: a `css` file, a five-segment filename,
a two-segment non-`index` filename, and `index.html` at the rustdoc root. -/
theorem C5_not_an_entry_cases_witness :
    parse_docset_entry (some "m") "p" "style.css" = ParseResult.notAnEntry ∧
    parse_docset_entry (some "m") "p" "a.b.c.d.html" = ParseResult.notAnEntry ∧
    parse_docset_entry (some "m") "p" "foo.html" = ParseResult.notAnEntry ∧
    parse_docset_entry none "p" "index.html" = ParseResult.notAnEntry :=
  ⟨(C5_not_an_entry_cases (some "m") "p" "style.css").1 (by decide),
   (C5_not_an_entry_cases (some "m") "p" "a.b.c.d.html").2.1 (by decide),
   (C5_not_an_entry_cases (some "m") "p" "foo.html").2.2.1 "foo" "html" (by decide) (by decide),
   (C5_not_an_entry_cases none "p" "index.html").2.2.2 (by decide) rfl⟩

/-- C10: the metadata writer fills all four variable fields of `Info.plist` —
bundle identifier, bundle name, platform family, and the directory prefix of
the `dashIndexFilePath` root index page path `<package>/index.html` — with the
one package display name, so all four are the identical string. -/
theorem C10_metadata_single_name (p : String) :
    (write_metadata p).bundleIdentifier = p ∧
    (write_metadata p).bundleName = p ∧
    (write_metadata p).platformFamily = p ∧
    (write_metadata p).dashIndexFilePath = p ++ "/index.html" ∧
    write_metadata_content p =
      renderInfoPlist ⟨p, p, p ++ "/index.html", p⟩ :=
  ⟨rfl, rfl, rfl, rfl, rfl⟩

/-- The insert loop appends every entry's row to the accumulated rows, on any
input: with no uniqueness index in existence nothing can make an insert fail. -/
lemma insert_loop_eq_append (l : List DocsetEntry) (rows : List SqlRow) :
    insert_loop l rows = rows ++ l.map DocsetEntry.toRow := by
  induction l generalizing rows with
  | nil => simp [insert_loop]
  | cons e rest ih => simp [insert_loop, ih]

/-- C1: the claim — backed by the spec and by the `CREATE UNIQUE INDEX anchor`
text in the source's own schema string — says a duplicate `(name, type, path)`
triple makes index construction fail and roll back in full. The program never
creates that index: the `CREATE UNIQUE INDEX` statement (and a stray closing
parenthesis, a syntax error had it ever been parsed) sit in the silently
discarded tail of the single-statement `conn.execute` schema call. At the
failing input — two identical entries — both inserts therefore succeed and the
duplicate-containing row set commits: index construction succeeds with a row
count of two, the duplicate silently kept. -/
theorem C1_duplicate_triple_commits :
    generate_sqlite_index
        [⟨"mycrate::foo", EntryType.Function, "mycrate/fn.foo.html"⟩,
         ⟨"mycrate::foo", EntryType.Function, "mycrate/fn.foo.html"⟩] =
      (true, [⟨"mycrate::foo", "Function", "mycrate/fn.foo.html"⟩,
              ⟨"mycrate::foo", "Function", "mycrate/fn.foo.html"⟩]) ∧
    ¬ (([⟨"mycrate::foo", EntryType.Function, "mycrate/fn.foo.html"⟩,
         ⟨"mycrate::foo", EntryType.Function, "mycrate/fn.foo.html"⟩] :
        List DocsetEntry).map DocsetEntry.toRow).Nodup :=
  ⟨by decide, by decide⟩

/-- C2: for every entry sequence with no duplicate `(name, type, path)`
triples, index construction succeeds, the committed `searchIndex` table holds
exactly the rows of the input entries, and its row count equals the number of
input entries. -/
theorem C2_no_duplicates_row_count (entries : List DocsetEntry)
    (_h : (entries.map DocsetEntry.toRow).Nodup) :
    generate_sqlite_index entries = (true, entries.map DocsetEntry.toRow) ∧
    (generate_sqlite_index entries).2.length = entries.length := by
  have hs : generate_sqlite_index entries = (true, entries.map DocsetEntry.toRow) := by
    simp [generate_sqlite_index, insert_loop_eq_append]
  exact ⟨hs, by simp [hs]⟩

/-- Witness for C2 at a concrete duplicate-free two-element sequence. -/
theorem C2_no_duplicates_row_count_witness :
    (([⟨"mycrate", EntryType.Package, "mycrate/index.html"⟩,
       ⟨"mycrate::foo", EntryType.Function, "mycrate/fn.foo.html"⟩] :
      List DocsetEntry).map DocsetEntry.toRow).Nodup ∧
    generate_sqlite_index
        [⟨"mycrate", EntryType.Package, "mycrate/index.html"⟩,
         ⟨"mycrate::foo", EntryType.Function, "mycrate/fn.foo.html"⟩] =
      (true, [⟨"mycrate", "Package", "mycrate/index.html"⟩,
              ⟨"mycrate::foo", "Function", "mycrate/fn.foo.html"⟩]) ∧
    (generate_sqlite_index
        [⟨"mycrate", EntryType.Package, "mycrate/index.html"⟩,
         ⟨"mycrate::foo", EntryType.Function, "mycrate/fn.foo.html"⟩]).2.length = 2 :=
  ⟨by decide,
   (C2_no_duplicates_row_count _ (by decide)).1,
   (C2_no_duplicates_row_count _ (by decide)).2⟩

/-- The skip test fires exactly for a direct child of the root (absent module
path) whose name is in the fixed exclusion set. -/
lemma skipDir_iff (mp : Option String) (name : String) :
    skipDir mp name = true ↔ mp = none ∧ name ∈ ROOT_SKIP_DIRS := by
  cases mp <;> simp [skipDir]

/-- A reserved-name directory that is a direct child of the root is skipped
entirely: the walk result does not depend on it, wherever it sits among the
root's entries and whatever it contains. -/
lemma walk_loop_skip_root (rel name : String) (cs : List FsEntry)
    (hname : name ∈ ROOT_SKIP_DIRS) (pre post : List FsEntry) :
    walk_loop none rel (pre ++ FsEntry.dir name cs :: post) =
      walk_loop none rel (pre ++ post) := by
  have hs : skipDir none name = true := (skipDir_iff none name).mpr ⟨rfl, hname⟩
  induction pre with
  | nil => simp [walk_loop, hs]
  | cons x pre' ih =>
    cases x with
    | file n =>
      simp only [List.cons_append, walk_loop]
      cases hp : parse_docset_entry none (relJoin rel n) n <;> simp only [hp] <;> rw [ih]
    | dir n cs' =>
      simp only [List.cons_append, walk_loop]
      by_cases hsn : skipDir none n = true
      · simp only [if_pos hsn]
        exact ih
      · simp only [if_neg hsn]
        rw [ih]
    | unreadableDir n =>
      simp only [List.cons_append, walk_loop]
      by_cases hsn : skipDir none n = true
      · simp only [if_pos hsn]
        exact ih
      · simp only [if_neg hsn]
        rw [ih]
    | ftypeError n => simp only [List.cons_append, walk_loop]

/-- A directory that is not a skipped root child is recursed into with the
module path extended by its name, and its entries are collected. -/
lemma walk_loop_recurse (mp : Option String) (rel name : String)
    (cs post : List FsEntry) (hns : ¬ (mp = none ∧ name ∈ ROOT_SKIP_DIRS))
    (es₀ es : List DocsetEntry) (subs : List WalkOutcome)
    (hsub : recursive_walk (some (extendModPath mp name)) (relJoin rel name) cs =
      WalkOutcome.ok es₀)
    (hpost : walk_loop mp rel post = some (es, subs)) :
    walk_loop mp rel (FsEntry.dir name cs :: post) =
      some (es, WalkOutcome.ok es₀ :: subs) := by
  have hs : ¬ skipDir mp name = true := fun hc => hns ((skipDir_iff mp name).mp hc)
  simp only [recursive_walk] at hsub
  simp only [walk_loop, if_neg hs, hsub, hpost]

/-- C6: a directory is skipped by the walk exactly when it is a direct child
of the rustdoc root (absent module path) with a name in the fixed exclusion
set `ROOT_SKIP_DIRS`: such a directory contributes nothing to the walk
whatever files it contains (they are never parsed), while any directory that
is deeper in the tree or not reserved-named is recursed into with the module
path extended by its name and its entries are collected. -/
theorem C6_root_skip_dirs (rel : String) :
    (∀ name cs pre post, name ∈ ROOT_SKIP_DIRS →
      walk_loop none rel (pre ++ FsEntry.dir name cs :: post) =
        walk_loop none rel (pre ++ post)) ∧
    (∀ mp name cs post es₀ es subs, ¬ (mp = none ∧ name ∈ ROOT_SKIP_DIRS) →
      recursive_walk (some (extendModPath mp name)) (relJoin rel name) cs =
        WalkOutcome.ok es₀ →
      walk_loop mp rel post = some (es, subs) →
      walk_loop mp rel (FsEntry.dir name cs :: post) =
        some (es, WalkOutcome.ok es₀ :: subs)) :=
  ⟨fun name cs pre post hname => walk_loop_skip_root rel name cs hname pre post,
   fun mp name cs post es₀ es subs hns hsub hpost =>
     walk_loop_recurse mp rel name cs post hns es₀ es subs hsub hpost⟩

/-- Witness for C6: at the root, a `src` directory holding an arbitrary
`html` file contributes nothing; one level down, a directory also named `src`
is recursed into and its `index.html` becomes a Module entry under the
extended path. -/
theorem C6_root_skip_dirs_witness :
    walk_loop none "" ([] ++ FsEntry.dir "src" [FsEntry.file "fn.evil.html"] ::
        [FsEntry.dir "mycrate" [FsEntry.file "index.html"]]) =
      walk_loop none "" ([] ++ [FsEntry.dir "mycrate" [FsEntry.file "index.html"]]) ∧
    walk_loop (some "mycrate") "mycrate" [FsEntry.dir "src" [FsEntry.file "index.html"]] =
      some ([], [WalkOutcome.ok
        [⟨"mycrate::src" ++ "::" ++ "index", EntryType.Module, "mycrate/src/index.html"⟩]]) :=
  ⟨(C6_root_skip_dirs "").1 "src" [FsEntry.file "fn.evil.html"] []
      [FsEntry.dir "mycrate" [FsEntry.file "index.html"]] (by decide),
   (C6_root_skip_dirs "mycrate").2 (some "mycrate") "src" [FsEntry.file "index.html"] []
      [⟨"mycrate::src" ++ "::" ++ "index", EntryType.Module, "mycrate/src/index.html"⟩] [] []
      (by decide)
      (by simp [recursive_walk, walk_loop, finish, skipDir, relJoin, extendModPath,
            parse_docset_entry, pathExtension, rustSplit, splitChar, containsChar, outEntries])
      (by simp [walk_loop])⟩

/-- A directory entry whose `file_type()` query fails makes the loop panic,
wherever it sits among the directory's entries. -/
lemma walk_loop_ftype_none (mp : Option String) (rel : String)
    (l : List FsEntry) (name : String) (h : FsEntry.ftypeError name ∈ l) :
    walk_loop mp rel l = none := by
  induction l with
  | nil => cases h
  | cons x rest ih =>
    cases x with
    | ftypeError n => simp [walk_loop]
    | file n =>
      have hm : FsEntry.ftypeError name ∈ rest := by
        rcases List.mem_cons.mp h with heq | hmem
        · cases heq
        · exact hmem
      cases hp : parse_docset_entry mp (relJoin rel n) n <;>
        simp [walk_loop, hp, ih hm]
    | dir n cs =>
      have hm : FsEntry.ftypeError name ∈ rest := by
        rcases List.mem_cons.mp h with heq | hmem
        · cases heq
        · exact hmem
      by_cases hsn : skipDir mp n = true
      · simp [walk_loop, hsn, ih hm]
      · cases hsub : finish (walk_loop (some (extendModPath mp n)) (relJoin rel n) cs) <;>
          simp [walk_loop, hsn, hsub, ih hm]
    | unreadableDir n =>
      have hm : FsEntry.ftypeError name ∈ rest := by
        rcases List.mem_cons.mp h with heq | hmem
        · cases heq
        · exact hmem
      by_cases hsn : skipDir mp n = true <;> simp [walk_loop, hsn, ih hm]

/-- When the loop does complete, a non-skipped unreadable subdirectory has
left an I/O error among the collected subdirectory outcomes. -/
lemma walk_loop_unreadable_ioErr (mp : Option String) (rel : String)
    (l : List FsEntry) (name : String) (h : FsEntry.unreadableDir name ∈ l)
    (hns : ¬ (mp = none ∧ name ∈ ROOT_SKIP_DIRS)) :
    ∀ es subs, walk_loop mp rel l = some (es, subs) → WalkOutcome.ioErr ∈ subs := by
  induction l with
  | nil => cases h
  | cons x rest ih =>
    intro es subs hw
    cases x with
    | ftypeError n => simp [walk_loop] at hw
    | file n =>
      have hm : FsEntry.unreadableDir name ∈ rest := by
        rcases List.mem_cons.mp h with heq | hmem
        · cases heq
        · exact hmem
      cases hp : parse_docset_entry mp (relJoin rel n) n <;>
        simp only [walk_loop, hp] at hw
      · rcases hr : walk_loop mp rel rest with _ | ⟨es', subs'⟩ <;> rw [hr] at hw
        · cases hw
        · injection hw with hw'
          injection hw' with h1 h2
          exact h2 ▸ ih hm es' subs' hr
      · exact ih hm es subs hw
      · cases hw
    | dir n cs =>
      by_cases hsn : skipDir mp n = true
      · have hm : FsEntry.unreadableDir name ∈ rest := by
          rcases List.mem_cons.mp h with heq | hmem
          · cases heq
          · exact hmem
        exact ih hm es subs (by simpa [walk_loop, hsn] using hw)
      · have hm : FsEntry.unreadableDir name ∈ rest := by
          rcases List.mem_cons.mp h with heq | hmem
          · cases heq
          · exact hmem
        simp only [walk_loop, if_neg hsn] at hw
        cases hsub : finish (walk_loop (some (extendModPath mp n)) (relJoin rel n) cs) <;>
          rw [hsub] at hw
        · rcases hr : walk_loop mp rel rest with _ | ⟨es', subs'⟩ <;> rw [hr] at hw
          · cases hw
          · injection hw with hw'
            injection hw' with h1 h2
            subst h2
            exact List.mem_cons_of_mem _ (ih hm es' subs' hr)
        · rcases hr : walk_loop mp rel rest with _ | ⟨es', subs'⟩ <;> rw [hr] at hw
          · cases hw
          · injection hw with hw'
            injection hw' with h1 h2
            subst h2
            exact List.mem_cons_of_mem _ (ih hm es' subs' hr)
        · cases hw
    | unreadableDir n =>
      by_cases hsn : skipDir mp n = true
      · have hm : FsEntry.unreadableDir name ∈ rest := by
          rcases List.mem_cons.mp h with heq | hmem
          · exfalso
            injection heq with hn
            subst hn
            exact hns ((skipDir_iff mp name).mp hsn)
          · exact hmem
        exact ih hm es subs (by simpa [walk_loop, hsn] using hw)
      · simp only [walk_loop, if_neg hsn] at hw
        rcases hr : walk_loop mp rel rest with _ | ⟨es', subs'⟩ <;> rw [hr] at hw
        · cases hw
        · injection hw with hw'
          injection hw' with h1 h2
          subst h2
          exact List.mem_cons_self _ _

/-- C8: an entry whose file type cannot be determined aborts the whole walk
as a fatal panic rather than a silent skip, and a non-skipped unreadable
directory anywhere in the current directory aborts the walk — absent a panic
elsewhere, the surfaced result is the I/O read error. -/
theorem C8_walk_failure_aborts (mp : Option String) (rel : String)
    (l : List FsEntry) :
    (∀ name, FsEntry.ftypeError name ∈ l →
      recursive_walk mp rel l = WalkOutcome.panic) ∧
    (∀ name, FsEntry.unreadableDir name ∈ l →
      ¬ (mp = none ∧ name ∈ ROOT_SKIP_DIRS) →
      recursive_walk mp rel l = WalkOutcome.panic ∨
        recursive_walk mp rel l = WalkOutcome.ioErr) := by
  constructor
  · intro name h
    simp [recursive_walk, walk_loop_ftype_none mp rel l name h, finish]
  · intro name h hns
    rcases hw : walk_loop mp rel l with _ | ⟨es, subs⟩
    · exact Or.inl (by simp [recursive_walk, hw, finish])
    · refine Or.inr ?_
      have hio : WalkOutcome.ioErr ∈ subs :=
        walk_loop_unreadable_ioErr mp rel l name h hns es subs hw
      simp [recursive_walk, hw, finish, hio]

/-- Witness for C8: a root directory holding one entry with an undeterminable
file type panics; a root directory holding one unreadable non-reserved
subdirectory does not complete (here, the I/O error). -/
theorem C8_walk_failure_aborts_witness :
    recursive_walk none "" [FsEntry.ftypeError "f"] = WalkOutcome.panic ∧
    (recursive_walk none "" [FsEntry.unreadableDir "deps"] = WalkOutcome.panic ∨
      recursive_walk none "" [FsEntry.unreadableDir "deps"] = WalkOutcome.ioErr) :=
  ⟨(C8_walk_failure_aborts none "" [FsEntry.ftypeError "f"]).1 "f" (by simp),
   (C8_walk_failure_aborts none "" [FsEntry.unreadableDir "deps"]).2 "deps" (by simp)
     (by decide)⟩

/-- C9: a non-empty exclusion list together with any package-selection mode
other than `all` makes `generate` fail with the usage error before any
side-effecting operation has been performed: the mutation trace is empty. -/
theorem C9_exclude_requires_all (cfg : GenerateConfig) (ws : WorkspaceInfo)
    (tree : List FsEntry) (bundleExists : Bool)
    (h1 : cfg.package ≠ PackageSel.all) (h2 : cfg.exclude ≠ []) :
    generate_model cfg ws tree bundleExists = (some GenError.args, []) := by
  simp [generate_model, h1, h2]

/-- Witness for C9 with the default configuration (current-package mode) plus
an exclusion list. -/
theorem C9_exclude_requires_all_witness :
    generate_model { GenerateConfig.default with exclude := ["other"] }
        ⟨"proj", "mycrate"⟩ [FsEntry.dir "mycrate" [FsEntry.file "index.html"]] true =
      (some GenError.args, []) :=
  C9_exclude_requires_all _ _ _ _ (by decide) (by decide)

/-- One mutation keeps "every file in the bundle directory was written by this
run" invariant: writes insert fresh files, removal empties the directory. -/
lemma applyMutation_fresh (s : List (String × Bool)) (m : Mutation)
    (h : ∀ f ∈ s, f.2 = true) : ∀ f ∈ applyMutation s m, f.2 = true := by
  intro f hf
  cases m with
  | removeBundle => cases hf
  | writeIndexFile =>
    rcases List.mem_cons.mp hf with heq | hmem
    · rw [heq]
    · exact h f (List.mem_of_mem_filter hmem)
  | copyDoc p =>
    rcases List.mem_cons.mp hf with heq | hmem
    · rw [heq]
    · exact h f (List.mem_of_mem_filter hmem)
  | writeMeta n =>
    rcases List.mem_cons.mp hf with heq | hmem
    · rw [heq]
    · exact h f (List.mem_of_mem_filter hmem)
  | cargoCleanOp => exact h f hf
  | cargoDocOp => exact h f hf
  | mkdirBundle => exact h f hf

/-- Folding any mutation sequence over an all-fresh bundle state keeps it
all-fresh. -/
lemma foldl_applyMutation_fresh (ms : List Mutation) :
    ∀ s, (∀ f ∈ s, f.2 = true) →
      ∀ f ∈ List.foldl applyMutation s ms, f.2 = true := by
  induction ms with
  | nil => intro s h; simpa using h
  | cons m rest ih =>
    intro s h
    simp only [List.foldl_cons]
    exact ih _ (applyMutation_fresh s m h)

/-- Every mutation the model performs before reaching the bundle-removal step
is a cargo operation, not a write below the bundle path. -/
lemma ms0_no_writes (cfg : GenerateConfig) :
    ∀ m ∈ (if cfg.clean then [Mutation.cargoCleanOp] else []) ++ [Mutation.cargoDocOp],
      writesBundle m = false := by
  intro m hm
  by_cases hcl : cfg.clean
  · simp [hcl] at hm
    rcases hm with rfl | rfl <;> rfl
  · simp [hcl] at hm
    subst hm
    rfl


/-- Trace decomposition of a run against an existing bundle: either the run
failed before touching the bundle path at all, or the trace splits at the
`remove_dir_all` of the pre-existing bundle, with only cargo operations
before it. -/
lemma generate_model_remove_decomp (cfg : GenerateConfig) (ws : WorkspaceInfo)
    (tree : List FsEntry) (err : Option GenError) (ms : List Mutation)
    (h : generate_model cfg ws tree true = (err, ms)) :
    ((∀ m ∈ ms, writesBundle m = false) ∧ err ≠ none) ∨
    (∃ post, ms = ((if cfg.clean then [Mutation.cargoCleanOp] else []) ++
        [Mutation.cargoDocOp]) ++ Mutation.removeBundle :: post) := by
  simp only [generate_model, reduceIte] at h
  split at h
  · injection h with h1 h2
    subst h2
    refine Or.inl ⟨fun m hm => absurd hm (List.not_mem_nil m), fun hne => ?_⟩
    rw [← h1] at hne
    exact Option.noConfusion hne
  · split at h
    · injection h with h1 h2
      subst h2
      refine Or.inl ⟨ms0_no_writes cfg, fun hne => ?_⟩
      rw [← h1] at hne
      exact Option.noConfusion hne
    · injection h with h1 h2
      subst h2
      refine Or.inl ⟨ms0_no_writes cfg, fun hne => ?_⟩
      rw [← h1] at hne
      exact Option.noConfusion hne
    · split at h
      · injection h with h1 h2
        subst h2
        exact Or.inr ⟨[Mutation.mkdirBundle, Mutation.writeIndexFile], by simp⟩
      · split at h
        · injection h with h1 h2
          subst h2
          exact Or.inr ⟨Mutation.mkdirBundle :: Mutation.writeIndexFile ::
            ((copyTrace "" tree).1.map Mutation.copyDoc ++
              [Mutation.writeMeta (root_package_name ws cfg.package)]), by simp⟩
        · injection h with h1 h2
          subst h2
          exact Or.inr ⟨Mutation.mkdirBundle :: Mutation.writeIndexFile ::
            (copyTrace "" tree).1.map Mutation.copyDoc, by simp⟩

/-- C7: against a pre-existing bundle, every operation of `generate` that
writes new output below the bundle's target path comes after the recursive
deletion of the old bundle (any mutations preceding the delete are cargo
operations), and consequently a completed run's bundle holds only files
written by this run — stale content from a previous run never survives into
a completed rebuild. -/
theorem C7_clean_rebuild (cfg : GenerateConfig) (ws : WorkspaceInfo)
    (tree : List FsEntry) (old : List String) :
    (∀ err ms, generate_model cfg ws tree true = (err, ms) →
      (∀ m ∈ ms, writesBundle m = false) ∨
      (∃ pre post, ms = pre ++ Mutation.removeBundle :: post ∧
        ∀ m ∈ pre, writesBundle m = false)) ∧
    (∀ ms, generate_model cfg ws tree true = (none, ms) →
      ∀ f ∈ List.foldl applyMutation (old.map fun p => (p, false)) ms,
        f.2 = true) := by
  constructor
  · intro err ms h
    rcases generate_model_remove_decomp cfg ws tree err ms h with ⟨hw, _⟩ | ⟨post, hms⟩
    · exact Or.inl hw
    · exact Or.inr ⟨_, post, hms, ms0_no_writes cfg⟩
  · intro ms h
    rcases generate_model_remove_decomp cfg ws tree none ms h with ⟨_, hne⟩ | ⟨post, hms⟩
    · exact absurd rfl hne
    · subst hms
      intro f hf
      rw [List.foldl_append, List.foldl_cons] at hf
      exact foldl_applyMutation_fresh post _
        (fun g hg => absurd hg (List.not_mem_nil g)) f hf

/-- Witness for C7: a default-configuration run over an empty rustdoc tree
against a bundle holding two stale files; the trace deletes the old bundle
before any bundle write, and the resulting bundle contents are all fresh. -/
theorem C7_clean_rebuild_witness :
    ((∀ m ∈ [Mutation.cargoCleanOp, Mutation.cargoDocOp, Mutation.removeBundle,
        Mutation.mkdirBundle, Mutation.writeIndexFile, Mutation.writeMeta "mycrate"],
       writesBundle m = false) ∨
     (∃ pre post, [Mutation.cargoCleanOp, Mutation.cargoDocOp, Mutation.removeBundle,
        Mutation.mkdirBundle, Mutation.writeIndexFile, Mutation.writeMeta "mycrate"] =
          pre ++ Mutation.removeBundle :: post ∧
        ∀ m ∈ pre, writesBundle m = false)) ∧
    (∀ f ∈ List.foldl applyMutation
        ([("Contents/Info.plist", false), ("Contents/Resources/docSet.dsidx", false)])
        [Mutation.cargoCleanOp, Mutation.cargoDocOp, Mutation.removeBundle,
          Mutation.mkdirBundle, Mutation.writeIndexFile, Mutation.writeMeta "mycrate"],
      f.2 = true) := by
  have h0 : walk_loop none "" ([] : List FsEntry) = some ([], []) := by
    simp [walk_loop]
  have hwalk : recursive_walk none "" ([] : List FsEntry) = WalkOutcome.ok [] := by
    unfold recursive_walk
    rw [h0]
    rfl
  have hcopy : copyTrace "" ([] : List FsEntry) = ([], true) := by
    simp [copyTrace]
  have hrun : generate_model GenerateConfig.default ⟨"proj", "mycrate"⟩ [] true =
      (none, [Mutation.cargoCleanOp, Mutation.cargoDocOp, Mutation.removeBundle,
        Mutation.mkdirBundle, Mutation.writeIndexFile, Mutation.writeMeta "mycrate"]) := by
    simp [generate_model, GenerateConfig.default, root_package_name, hwalk, hcopy,
      generate_sqlite_index, insert_loop]
  exact ⟨(C7_clean_rebuild GenerateConfig.default ⟨"proj", "mycrate"⟩ []
      ["Contents/Info.plist", "Contents/Resources/docSet.dsidx"]).1 none _ hrun,
    (C7_clean_rebuild GenerateConfig.default ⟨"proj", "mycrate"⟩ []
      ["Contents/Info.plist", "Contents/Resources/docSet.dsidx"]).2 _ hrun⟩
